import Mathlib

/-! Shallow embedding of the analytics aggregation core of the Beauty &
Wellness Growth OS backend (`main.py`): the `/analytics/summary` rollup
(`analytics_summary`, lines 390–442) and the `/admin/metrics` fleet
metrics (`admin_metrics`, lines 447–477), together with the window
resolver both use.

Modelling choices:
* Documents read back from the Mongo store are raw records; a field read
  with `dict.get(k, default)` in the source is an `Option` field here,
  read with `Option.getD`.
* Monetary values (`float` in the source) are modelled as rationals.
* Datetimes are UTC calendar records (`DateTime` below); BSON dates
  compare by their epoch value, so `$gte` on a stored datetime is
  modelled through `epochSeconds`.  `timedelta(days = n)` subtraction is
  proleptic-Gregorian day arithmetic (`subDays`) keeping time of day,
  which is exact for aware UTC datetimes.
* Collection scans (`find`), `count_documents` and the returning-client
  aggregation pipeline are modelled over the lists of documents held by
  a `Store` value; the pipeline's group/threshold/count stages become
  `dedup`/`filter`/`length`.
* The `try/except` around the aggregation pipeline is modelled by the
  flag `aggFails`: `true` means the aggregation engine raised, in which
  case the handler substitutes `0`, exactly as the `except` branch does.
* `created_at` on bookings and clients is stamped by the storage layer
  (`database.py`, outside the analytics core); here it is simply a field
  every stored document carries, as the spec's data model states.
-/

namespace GrowthOS

/-- A UTC calendar datetime, mirroring an aware `datetime.datetime`. -/
structure DateTime where
  year : Int
  month : Int
  day : Int
  hour : Int
  minute : Int
  second : Int
  deriving DecidableEq

/-- Proleptic-Gregorian day number of a civil date (days since
1970-01-01); floor-division variant of the standard civil-calendar
conversion. -/
def daysFromCivil (y m d : Int) : Int :=
  let ys := if m ≤ 2 then y - 1 else y
  let era := ys / 400
  let yoe := ys - era * 400
  let mp := (m + 9) % 12
  let doy := (153 * mp + 2) / 5 + d - 1
  let doe := yoe * 365 + yoe / 4 - yoe / 100 + doy
  era * 146097 + doe - 719468

/-- Inverse direction: civil date `(year, month, day)` of a day number. -/
def civilFromDays (z0 : Int) : Int × Int × Int :=
  let z := z0 + 719468
  let era := z / 146097
  let doe := z - era * 146097
  let yoe := (doe - doe / 1460 + doe / 36524 - doe / 146096) / 365
  let y := yoe + era * 400
  let doy := doe - (365 * yoe + yoe / 4 - yoe / 100)
  let mp := (5 * doy + 2) / 153
  let d := doy - (153 * mp + 2) / 5 + 1
  let m := if mp < 10 then mp + 3 else mp - 9
  (if m ≤ 2 then y + 1 else y, m, d)

/-- Day number of a `DateTime`. -/
def dayNumber (dt : DateTime) : Int := daysFromCivil dt.year dt.month dt.day

/-- Seconds since the Unix epoch.  BSON datetimes are stored and compared
as epoch values, so Mongo `$gte` filters on dates are modelled through
this key. -/
def epochSeconds (dt : DateTime) : Int :=
  dayNumber dt * 86400 + dt.hour * 3600 + dt.minute * 60 + dt.second

/-- Chronological `a ≤ b` on datetimes, as Mongo evaluates `$gte`. -/
def dtLe (a b : DateTime) : Bool := decide (epochSeconds a ≤ epochSeconds b)

/-- `dt - timedelta(days = n)`: day arithmetic on the calendar part, time
of day unchanged (exact for aware UTC datetimes, where a timedelta day
is 24 hours). -/
def subDays (dt : DateTime) (n : Int) : DateTime :=
  let c := civilFromDays (dayNumber dt - n)
  ⟨c.1, c.2.1, c.2.2, dt.hour, dt.minute, dt.second⟩

/-- `period.replace("d", "")`: removes every occurrence of `"d"` (a
single character, so character filtering is exact). -/
def stripD (period : String) : List Char := period.toList.filter (fun c => c ≠ 'd')

/-- Decimal value of a digit string, as Python `int()` reads it. -/
def digitsVal (cs : List Char) : Nat := cs.foldl (fun acc c => acc * 10 + (c.toNat - 48)) 0

/-- `int(period.replace("d", ""))` (main.py line 396). -/
def parsedDays (period : String) : Nat := digitsVal (stripD period)

/-- Window resolver, main.py lines 393–397: `"mtd"` maps to the first
day of the current month at 00:00:00 UTC, any other token has its day
count parsed out of it and subtracted from `now`. -/
def resolveWindowStart (now : DateTime) (period : String) : DateTime :=
  if period = "mtd" then
    ⟨now.year, now.month, 1, 0, 0, 0⟩
  else
    subDays now (parsedDays period : Int)

/-- A stored transaction document as the rollup reads it
(`t.get("amount", 0)` and `t.get("status")` are defensive reads, hence
`Option` fields). -/
structure TransactionDoc where
  salon_id : String
  amount : Option ℚ
  status : Option String
  timestamp : DateTime
  deriving DecidableEq

/-- A stored booking document as the rollup reads it. -/
structure BookingDoc where
  salon_id : String
  client_id : Option String
  start_time : DateTime
  end_time : DateTime
  status : String
  created_at : DateTime
  deriving DecidableEq

/-- A stored client document as the rollup reads it. -/
structure ClientDoc where
  salon_id : String
  created_at : DateTime
  deriving DecidableEq

/-- A stored subscription document as the fleet metrics read it. -/
structure SubscriptionDoc where
  salon_id : String
  status : Option String
  mrr : Option ℚ
  deriving DecidableEq

/-- A stored salon document (only its existence is counted). -/
structure SalonDoc where
  name : String
  deriving DecidableEq

/-- The document store as the aggregation core sees it: one list of raw
documents per collection it reads. -/
structure Store where
  transactions : List TransactionDoc
  bookings : List BookingDoc
  clients : List ClientDoc
  subscriptions : List SubscriptionDoc
  salons : List SalonDoc
  deriving DecidableEq

/-- Tenant part of the match predicates: `if salon_id: match["salon_id"]
= salon_id` adds the equality constraint only when the handler argument
is both present and truthy — `None` and the empty string add nothing. -/
def tenantMatch : Option String → String → Bool
  | none, _ => true
  | some s, docSalon => if s = "" then true else decide (docSalon = s)

/-- The `match` filter on transactions (main.py lines 399–401):
`{"timestamp": {"$gte": start}}` plus the optional tenant constraint. -/
def txMatch (salonId : Option String) (start : DateTime) (t : TransactionDoc) : Bool :=
  dtLe start t.timestamp && tenantMatch salonId t.salon_id

/-- The `b_match` filter on bookings (lines 410–412): `created_at ≥
start` plus the optional tenant constraint. -/
def bookingCreatedMatch (salonId : Option String) (start : DateTime) (b : BookingDoc) : Bool :=
  dtLe start b.created_at && tenantMatch salonId b.salon_id

/-- The `c_match` filter on clients (lines 416–418). -/
def clientCreatedMatch (salonId : Option String) (start : DateTime) (c : ClientDoc) : Bool :=
  dtLe start c.created_at && tenantMatch salonId c.salon_id

/-- The `$match` stage of the returning-clients pipeline (line 424):
`start_time ≥ start` plus the optional tenant constraint. -/
def bookingStartMatch (salonId : Option String) (start : DateTime) (b : BookingDoc) : Bool :=
  dtLe start b.start_time && tenantMatch salonId b.salon_id

/-- The revenue loop (lines 404–407): fold over the matched
transactions, adding `float(t.get("amount", 0))` whenever
`t.get("status") == "succeeded"`. -/
def revenueLoop : List TransactionDoc → ℚ → ℚ
  | [], acc => acc
  | t :: ts, acc =>
      revenueLoop ts (if t.status = some "succeeded" then acc + t.amount.getD 0 else acc)

/-- The returning-clients pipeline (lines 423–432): `$match` on
`start_time`/tenant, `$group` by `client_id` (documents with no client
reference share the `null` group key, modelled by the `Option` key),
`$sum: 1` per group, `$match` on count `> 1`, `$count`.  An empty
aggregation result leaves the count at `0`, which coincides with the
length of the empty filtered key list. -/
def returningPipeline (bookings : List BookingDoc) (salonId : Option String)
    (start : DateTime) : Nat :=
  let matched := bookings.filter (bookingStartMatch salonId start)
  let keys := (matched.map (fun b => b.client_id)).dedup
  (keys.filter (fun k => decide (1 < (matched.filter (fun b => decide (b.client_id = k))).length))).length

/-- The response of `/analytics/summary` (lines 436–442). -/
structure Summary where
  period : String
  total_revenue : ℚ
  total_bookings : Nat
  new_clients : Nat
  returning_clients : Nat
  deriving DecidableEq

/-- `analytics_summary` (main.py lines 390–442): resolve the window
start from `period` and `now`, sum succeeded-transaction revenue, count
bookings and clients created in the window, and run the
returning-clients aggregation; `aggFails = true` models the pipeline
raising, in which case the `except` branch substitutes `0`. -/
def analytics_summary (store : Store) (salon_id : Option String) (period : String)
    (now : DateTime) (aggFails : Bool) : Summary :=
  let start := resolveWindowStart now period
  let revenue := revenueLoop (store.transactions.filter (txMatch salon_id start)) 0
  let total_bookings := (store.bookings.filter (bookingCreatedMatch salon_id start)).length
  let new_clients := (store.clients.filter (clientCreatedMatch salon_id start)).length
  let returning_clients :=
    if aggFails then 0 else returningPipeline store.bookings salon_id start
  { period := period
    total_revenue := revenue
    total_bookings := total_bookings
    new_clients := new_clients
    returning_clients := returning_clients }

/-- Subscription-status filter `{"status": {"$in": ["active",
"past_due"]}}` (lines 450 and 455). -/
def isActiveOrPastDue (s : SubscriptionDoc) : Bool :=
  decide (s.status = some "active") || decide (s.status = some "past_due")

/-- The MRR loop (lines 454–456): fold over the matched subscriptions,
adding `float(s.get("mrr", 0))`. -/
def mrrLoop : List SubscriptionDoc → ℚ → ℚ
  | [], acc => acc
  | s :: ss, acc => mrrLoop ss (acc + s.mrr.getD 0)

/-- The 30-day revenue loop (lines 460–462): the status and timestamp
constraints sit in the query, the loop adds `float(t.get("amount", 0))`
unconditionally. -/
def amountLoop : List TransactionDoc → ℚ → ℚ
  | [], acc => acc
  | t :: ts, acc => amountLoop ts (acc + t.amount.getD 0)

/-- The response of `/admin/metrics` (lines 469–477). -/
structure FleetMetrics where
  total_salons : Nat
  active_paid_salons : Nat
  trial_salons : Nat
  mrr : ℚ
  arr : ℚ
  revenue_30d : ℚ
  daily_active_salons : Nat
  deriving DecidableEq

/-- `admin_metrics` (main.py lines 447–477): unscoped salon count,
subscription counts by status, MRR over active/past-due subscriptions,
ARR as `mrr * 12`, succeeded-transaction revenue over a fixed 30-day
window, and distinct tenants with a booking created in the last day. -/
def admin_metrics (store : Store) (now : DateTime) : FleetMetrics :=
  let total_salons := store.salons.length
  let active_paid := (store.subscriptions.filter isActiveOrPastDue).length
  let on_trial := (store.subscriptions.filter (fun s => decide (s.status = some "trial"))).length
  let mrr := mrrLoop (store.subscriptions.filter isActiveOrPastDue) 0
  let last30 := subDays now 30
  let revenue_30d := amountLoop
    (store.transactions.filter
      (fun t => dtLe last30 t.timestamp && decide (t.status = some "succeeded"))) 0
  let last1d := subDays now 1
  let daily_active_salons :=
    ((store.bookings.filter (fun b => dtLe last1d b.created_at)).map (fun b => b.salon_id)).dedup.length
  { total_salons := total_salons
    active_paid_salons := active_paid
    trial_salons := on_trial
    mrr := mrr
    arr := mrr * 12
    revenue_30d := revenue_30d
    daily_active_salons := daily_active_salons }

/-! Concrete scenario data used by the test-style parts of the theorems
below.  `nowEx` is the computation time; the other datetimes are chosen
relative to the 7-day and 30-day windows it induces. -/

/-- Fixed computation time for the concrete scenarios: 2026-10-12 09:30 UTC. -/
def nowEx : DateTime := ⟨2026, 10, 12, 9, 30, 0⟩

/-- 2026-10-01 12:00 UTC — inside the 30-day window of `nowEx`. -/
def dtIn : DateTime := ⟨2026, 10, 1, 12, 0, 0⟩

/-- 2026-10-10 08:00 UTC — inside the 7-day window of `nowEx`. -/
def dtIn2 : DateTime := ⟨2026, 10, 10, 8, 0, 0⟩

/-- 2026-10-11 08:00 UTC — inside the 7-day window of `nowEx`. -/
def dtIn3 : DateTime := ⟨2026, 10, 11, 8, 0, 0⟩

/-- 2020-01-01 — before every window used here. -/
def dtOld : DateTime := ⟨2020, 1, 1, 0, 0, 0⟩

/-- 2027-01-01 — strictly after `nowEx`, i.e. in the future at
computation time. -/
def dtFuture : DateTime := ⟨2027, 1, 1, 0, 0, 0⟩

/-- One succeeded transaction of 100 and one failed transaction of 50
for tenant `"T"`, both in the 30-day window of `nowEx`. -/
def c1store : Store :=
  ⟨[⟨"T", some 100, some "succeeded", dtIn⟩, ⟨"T", some 50, some "failed", dtIn⟩],
   [], [], [], []⟩

/-- Client `"A"` with exactly two bookings whose `start_time` is in the
7-day window of `nowEx`, and nothing else. -/
def c3twoStore : Store :=
  ⟨[], [⟨"T", some "A", dtIn2, dtIn2, "confirmed", dtIn2⟩,
        ⟨"T", some "A", dtIn3, dtIn3, "confirmed", dtIn3⟩], [], [], []⟩

/-- Client `"A"` with exactly one booking whose `start_time` is in the
7-day window of `nowEx`, plus one booking whose `start_time` is far
before the window. -/
def c3oneStore : Store :=
  ⟨[], [⟨"T", some "A", dtIn2, dtIn2, "confirmed", dtIn2⟩,
        ⟨"T", some "A", dtOld, dtOld, "completed", dtOld⟩], [], [], []⟩

/-- Two bookings with no client reference, both with `start_time` in the
7-day window of `nowEx`. -/
def c9store : Store :=
  ⟨[], [⟨"T", none, dtIn2, dtIn2, "confirmed", dtIn2⟩,
        ⟨"T", none, dtIn3, dtIn3, "confirmed", dtIn3⟩], [], [], []⟩

/-- Client `"A"` with two cancelled bookings, both with `start_time` in
the 7-day window of `nowEx`, and nothing else. -/
def c10store : Store :=
  ⟨[], [⟨"T", some "A", dtIn2, dtIn2, "cancelled", dtIn2⟩,
        ⟨"T", some "A", dtIn3, dtIn3, "cancelled", dtIn3⟩], [], [], []⟩

/-- Subscriptions `[{status: active, mrr: 1000}, {status: trial,
mrr: 500}, {status: canceled, mrr: 2000}]`. -/
def c5store : Store :=
  ⟨[], [], [],
   [⟨"s1", some "active", some 1000⟩, ⟨"s2", some "trial", some 500⟩,
    ⟨"s3", some "canceled", some 2000⟩], []⟩

/-- A store whose every document carries a time field strictly after
`nowEx`: a succeeded transaction of 50, two bookings of client `"A"`,
and one client record, all stamped `dtFuture`. -/
def c6store : Store :=
  ⟨[⟨"T", some 50, some "succeeded", dtFuture⟩],
   [⟨"T", some "A", dtFuture, dtFuture, "confirmed", dtFuture⟩,
    ⟨"T", some "A", dtFuture, dtFuture, "confirmed", dtFuture⟩],
   [⟨"T", dtFuture⟩], [], []⟩

/-- A succeeded in-window transaction of tenant `"Y"`. -/
def txY : TransactionDoc := ⟨"Y", some 3, some "succeeded", dtIn⟩

/-- A succeeded in-window transaction of tenant `"X"`. -/
def txX : TransactionDoc := ⟨"X", some 7, some "succeeded", dtIn⟩

/-- A store holding only tenant `"Y"` data. -/
def c7storeY : Store := ⟨[txY], [], [], [], []⟩

/-- The empty store. -/
def emptyStore : Store := ⟨[], [], [], [], []⟩

/-- Tenant `"X"`'s transaction together with a foreign tenant's one. -/
def c7storeXY : Store := ⟨[txX, txY], [], [], [], []⟩

/-- Only tenant `"X"`'s transaction. -/
def c7storeX : Store := ⟨[txX], [], [], [], []⟩

/-- A reachable store holding a succeeded in-window transaction with a
negative amount (the create-transaction endpoint validates no lower
bound on `amount`). -/
def negStore : Store :=
  ⟨[⟨"T", some (-50), some "succeeded", dtIn⟩], [], [], [], []⟩

/-- A succeeded transaction of 5 stamped after `nowEx`. -/
def txF : TransactionDoc := ⟨"T", some 5, some "succeeded", dtFuture⟩

/-- A booking created after `nowEx`. -/
def bkgF : BookingDoc := ⟨"T", some "A", dtFuture, dtFuture, "confirmed", dtFuture⟩

/-- A client record created after `nowEx`. -/
def clF : ClientDoc := ⟨"T", dtFuture⟩

/-- An in-window succeeded transaction whose document lacks the
`amount` field. -/
def txNone : TransactionDoc := ⟨"T", none, some "succeeded", dtIn⟩

/-- An active subscription whose document lacks the `mrr` field. -/
def subNone : SubscriptionDoc := ⟨"s9", some "active", none⟩

/-! Helper lemmas about the fold loops. -/

theorem revenueLoop_acc (l : List TransactionDoc) (acc : ℚ) :
    revenueLoop l acc = acc + revenueLoop l 0 := by
  induction l generalizing acc with
  | nil => simp [revenueLoop]
  | cons t ts ih =>
    simp only [revenueLoop]
    by_cases h : t.status = some "succeeded"
    · rw [if_pos h, if_pos h, ih, ih (0 + t.amount.getD 0)]; ring
    · rw [if_neg h, if_neg h, ih]

theorem revenueLoop_eq_sum (l : List TransactionDoc) :
    revenueLoop l 0 =
      ((l.filter (fun t => decide (t.status = some "succeeded"))).map
        (fun t => t.amount.getD 0)).sum := by
  induction l with
  | nil => simp [revenueLoop]
  | cons t ts ih =>
    simp only [revenueLoop, List.filter_cons]
    by_cases h : t.status = some "succeeded"
    · rw [if_pos h, revenueLoop_acc, ih]
      simp [h]
    · rw [if_neg h]
      simp [h, ih]

theorem amountLoop_acc (l : List TransactionDoc) (acc : ℚ) :
    amountLoop l acc = acc + amountLoop l 0 := by
  induction l generalizing acc with
  | nil => simp [amountLoop]
  | cons t ts ih =>
    simp only [amountLoop]
    rw [ih, ih (0 + t.amount.getD 0)]; ring

theorem amountLoop_eq_sum (l : List TransactionDoc) :
    amountLoop l 0 = (l.map (fun t => t.amount.getD 0)).sum := by
  induction l with
  | nil => simp [amountLoop]
  | cons t ts ih =>
    simp only [amountLoop, List.map_cons, List.sum_cons]
    rw [amountLoop_acc, ih]; ring

theorem mrrLoop_acc (l : List SubscriptionDoc) (acc : ℚ) :
    mrrLoop l acc = acc + mrrLoop l 0 := by
  induction l generalizing acc with
  | nil => simp [mrrLoop]
  | cons s ss ih =>
    simp only [mrrLoop]
    rw [ih, ih (0 + s.mrr.getD 0)]; ring

theorem mrrLoop_eq_sum (l : List SubscriptionDoc) :
    mrrLoop l 0 = (l.map (fun s => s.mrr.getD 0)).sum := by
  induction l with
  | nil => simp [mrrLoop]
  | cons s ss ih =>
    simp only [mrrLoop, List.map_cons, List.sum_cons]
    rw [mrrLoop_acc, ih]; ring

/-! Claim theorems. -/

/-- C1: for every store state, tenant scope and window, `total_revenue`
equals the sum of `amount` over exactly the transactions matching the
time+tenant filter with status `succeeded`; any other status
contributes nothing.  In particular a succeeded transaction of 100 and
a failed one of 50, both in-window, yield `total_revenue = 100`. -/
theorem C1_total_revenue_succeeded_only :
    (∀ (store : Store) (salonId : Option String) (period : String) (now : DateTime)
        (aggFails : Bool),
      (analytics_summary store salonId period now aggFails).total_revenue =
        ((store.transactions.filter (fun t =>
            txMatch salonId (resolveWindowStart now period) t
              && decide (t.status = some "succeeded"))).map
          (fun t => t.amount.getD 0)).sum)
    ∧ (analytics_summary c1store (some "T") "30d" nowEx false).total_revenue = 100 := by
  constructor
  · intro store salonId period now aggFails
    show revenueLoop (store.transactions.filter (txMatch salonId (resolveWindowStart now period))) 0 = _
    have hf : store.transactions.filter (fun a =>
          decide (a.status = some "succeeded")
            && txMatch salonId (resolveWindowStart now period) a)
        = store.transactions.filter (fun t =>
          txMatch salonId (resolveWindowStart now period) t
            && decide (t.status = some "succeeded")) :=
      List.filter_congr (fun t _ => Bool.and_comm _ _)
    rw [revenueLoop_eq_sum, List.filter_filter, hf]
  · show revenueLoop (c1store.transactions.filter (txMatch (some "T") (resolveWindowStart nowEx "30d"))) 0 = 100
    have hf : c1store.transactions.filter (txMatch (some "T") (resolveWindowStart nowEx "30d"))
        = c1store.transactions := by rfl
    rw [hf]
    norm_num [c1store, revenueLoop]
    decide

/-- C2: if the returning-clients aggregation fails while the other
queries succeed, `summarize` still returns a complete response with
`returning_clients = 0` and the same revenue, booking count and client
count as without the failure. -/
theorem C2_aggregation_failure_degraded :
    ∀ (store : Store) (salonId : Option String) (period : String) (now : DateTime),
      (analytics_summary store salonId period now true).returning_clients = 0
      ∧ (analytics_summary store salonId period now true).total_revenue =
          (analytics_summary store salonId period now false).total_revenue
      ∧ (analytics_summary store salonId period now true).total_bookings =
          (analytics_summary store salonId period now false).total_bookings
      ∧ (analytics_summary store salonId period now true).new_clients =
          (analytics_summary store salonId period now false).new_clients := by
  intro store salonId period now
  refine ⟨rfl, rfl, rfl, rfl⟩

/-- A deduplicated list filtered by a boolean predicate has as many
elements as the corresponding filtered finset of the list's elements. -/
theorem dedup_filter_length_eq_card {α : Type} [DecidableEq α] (l : List α) (p : α → Bool) :
    (l.dedup.filter p).length = (l.toFinset.filter (fun a => p a)).card := by
  have h1 : (l.dedup.filter p).Nodup := (List.nodup_dedup l).filter p
  calc (l.dedup.filter p).length
      = (l.dedup.filter p).toFinset.card := (List.toFinset_card_of_nodup h1).symm
    _ = (l.dedup.toFinset.filter (fun a => p a)).card := by rw [List.toFinset_filter]
    _ = (l.toFinset.filter (fun a => p a)).card := by
        have hd : l.dedup.toFinset = l.toFinset := by
          ext a
          simp [List.mem_toFinset, List.mem_dedup]
        rw [hd]

/-- C3: `returning_clients` is the number of distinct client references
(group keys) with strictly more than one booking whose `start_time`
passes the window+tenant match; a client with exactly two matched
bookings and no other activity yields 1, and a client with exactly one
matched booking contributes 0 even when it has bookings before the
window. -/
theorem C3_returning_clients_threshold :
    (∀ (store : Store) (salonId : Option String) (period : String) (now : DateTime),
      (analytics_summary store salonId period now false).returning_clients =
        (((store.bookings.filter (bookingStartMatch salonId (resolveWindowStart now period))).map
            (fun b => b.client_id)).toFinset.filter
          (fun k => decide (1 <
            ((store.bookings.filter (bookingStartMatch salonId (resolveWindowStart now period))).filter
              (fun b => decide (b.client_id = k))).length))).card)
    ∧ (analytics_summary c3twoStore none "7d" nowEx false).returning_clients = 1
    ∧ (analytics_summary c3oneStore none "7d" nowEx false).returning_clients = 0 := by
  refine ⟨?_, by decide, by decide⟩
  intro store salonId period now
  show returningPipeline store.bookings salonId (resolveWindowStart now period) = _
  unfold returningPipeline
  exact dedup_filter_length_eq_card _ _

/-- C4: the window resolver subtracts from `now` exactly the number of
days parsed out of a `"7d"`/`"30d"`/`"90d"` token, and for `"mtd"`
yields the first day of the current month at 00:00:00 UTC. -/
theorem C4_window_resolver :
    ∀ now : DateTime,
      resolveWindowStart now "7d" = subDays now 7
      ∧ resolveWindowStart now "30d" = subDays now 30
      ∧ resolveWindowStart now "90d" = subDays now 90
      ∧ (resolveWindowStart now "mtd").day = 1
      ∧ (resolveWindowStart now "mtd").hour = 0
      ∧ (resolveWindowStart now "mtd").minute = 0
      ∧ (resolveWindowStart now "mtd").second = 0
      ∧ (resolveWindowStart now "mtd").year = now.year
      ∧ (resolveWindowStart now "mtd").month = now.month := by
  intro now
  have h7 : ((parsedDays "7d" : Nat) : Int) = 7 := by decide
  have h30 : ((parsedDays "30d" : Nat) : Int) = 30 := by decide
  have h90 : ((parsedDays "90d" : Nat) : Int) = 90 := by decide
  refine ⟨?_, ?_, ?_, rfl, rfl, rfl, rfl, rfl, rfl⟩
  · unfold resolveWindowStart
    rw [if_neg (by decide), h7]
  · unfold resolveWindowStart
    rw [if_neg (by decide), h30]
  · unfold resolveWindowStart
    rw [if_neg (by decide), h90]

/-- C5: fleet `mrr` sums the `mrr` field over exactly the subscriptions
with status `active` or `past_due` (trial and canceled contribute
zero), `arr` is `mrr * 12`, and the given three-subscription example
yields `mrr = 1000`, `arr = 12000`. -/
theorem C5_fleet_mrr_arr :
    (∀ (store : Store) (now : DateTime),
      (admin_metrics store now).mrr =
        ((store.subscriptions.filter isActiveOrPastDue).map (fun s => s.mrr.getD 0)).sum
      ∧ (admin_metrics store now).arr = (admin_metrics store now).mrr * 12)
    ∧ (admin_metrics c5store nowEx).mrr = 1000
    ∧ (admin_metrics c5store nowEx).arr = 12000 := by
  refine ⟨fun store now => ⟨mrrLoop_eq_sum _, rfl⟩, ?_, ?_⟩
  · show mrrLoop (c5store.subscriptions.filter isActiveOrPastDue) 0 = 1000
    have hf : c5store.subscriptions.filter isActiveOrPastDue
        = [⟨"s1", some "active", some 1000⟩] := by rfl
    rw [hf]
    norm_num [mrrLoop]
  · show mrrLoop (c5store.subscriptions.filter isActiveOrPastDue) 0 * 12 = 12000
    have hf : c5store.subscriptions.filter isActiveOrPastDue
        = [⟨"s1", some "active", some 1000⟩] := by rfl
    rw [hf]
    norm_num [mrrLoop]

/-- C9: bookings without a client reference all share the `null` group
key, so a store with exactly two client-less in-window bookings and
nothing else reports `returning_clients = 1`. -/
theorem C9_null_client_grouping :
    (c9store.bookings.map (fun b => b.client_id)) = [none, none]
    ∧ (analytics_summary c9store none "7d" nowEx false).returning_clients = 1 :=
  ⟨rfl, by decide⟩

/-- C10: the returning-clients grouping applies no booking-status
filter: rewriting every booking's status arbitrarily never changes the
pipeline's result, and a client with two cancelled in-window bookings
and nothing else yields `returning_clients = 1`. -/
theorem C10_no_status_filter :
    (∀ (bookings : List BookingDoc) (salonId : Option String) (start : DateTime)
        (f : BookingDoc → String),
      returningPipeline (bookings.map (fun b => { b with status := f b })) salonId start =
        returningPipeline bookings salonId start)
    ∧ (c10store.bookings.map (fun b => b.status)) = ["cancelled", "cancelled"]
    ∧ (analytics_summary c10store none "7d" nowEx false).returning_clients = 1 := by
  refine ⟨?_, rfl, by decide⟩
  intro bookings salonId start f
  unfold returningPipeline
  simp only [List.filter_map, List.map_map, Function.comp, List.length_map]
  rfl

/-- C6 fails on the code: the match filters apply only the lower bound
`$gte: start` and never compare against `now`, so documents stamped in
the future (all of `c6store`, stamped `dtFuture > nowEx`) are counted by
every rollup instead of being excluded. -/
theorem C6_counterexample_future_included :
    dtLe nowEx dtFuture = true
    ∧ (analytics_summary c6store none "30d" nowEx false).total_revenue = 50
    ∧ (analytics_summary c6store none "30d" nowEx false).total_revenue ≠ 0
    ∧ (analytics_summary c6store none "30d" nowEx false).total_bookings = 2
    ∧ (analytics_summary c6store none "30d" nowEx false).new_clients = 1
    ∧ (analytics_summary c6store none "30d" nowEx false).returning_clients = 1 := by
  have hf : c6store.transactions.filter (txMatch none (resolveWindowStart nowEx "30d"))
      = c6store.transactions := by rfl
  have hr : (analytics_summary c6store none "30d" nowEx false).total_revenue = 50 := by
    show revenueLoop (c6store.transactions.filter (txMatch none (resolveWindowStart nowEx "30d"))) 0 = 50
    rw [hf]
    norm_num [c6store, revenueLoop]
  refine ⟨by decide, hr, by rw [hr]; norm_num, by decide, by decide, by decide⟩

/-- C6 amended: each rollup scopes documents to `[start, ∞)` — a
document whose time field passes the tenant filter and is `≥ start` is
counted, with no upper bound at `now` (so future-dated documents are
included like any others). -/
theorem C6_amended_lower_bound_scope :
    ∀ (store : Store) (salonId : Option String) (period : String) (now : DateTime)
      (aggFails : Bool) (tx : TransactionDoc) (b : BookingDoc) (c : ClientDoc),
      dtLe (resolveWindowStart now period) tx.timestamp = true →
      tenantMatch salonId tx.salon_id = true →
      tx.status = some "succeeded" →
      dtLe (resolveWindowStart now period) b.created_at = true →
      tenantMatch salonId b.salon_id = true →
      dtLe (resolveWindowStart now period) b.start_time = true →
      dtLe (resolveWindowStart now period) c.created_at = true →
      tenantMatch salonId c.salon_id = true →
      (analytics_summary { store with transactions := tx :: store.transactions }
          salonId period now aggFails).total_revenue
        = tx.amount.getD 0 + (analytics_summary store salonId period now aggFails).total_revenue
      ∧ (analytics_summary { store with bookings := b :: store.bookings }
          salonId period now aggFails).total_bookings
        = (analytics_summary store salonId period now aggFails).total_bookings + 1
      ∧ (analytics_summary { store with clients := c :: store.clients }
          salonId period now aggFails).new_clients
        = (analytics_summary store salonId period now aggFails).new_clients + 1
      ∧ (b :: store.bookings).filter (bookingStartMatch salonId (resolveWindowStart now period))
        = b :: store.bookings.filter (bookingStartMatch salonId (resolveWindowStart now period)) := by
  intro store salonId period now aggFails tx b c htxT htxS htxStatus hbT hbS hbST hcT hcS
  refine ⟨?_, ?_, ?_, ?_⟩
  · show revenueLoop ((tx :: store.transactions).filter
        (txMatch salonId (resolveWindowStart now period))) 0
      = tx.amount.getD 0
        + revenueLoop (store.transactions.filter
            (txMatch salonId (resolveWindowStart now period))) 0
    rw [List.filter_cons_of_pos]
    · show revenueLoop (tx :: _) 0 = _
      conv_lhs => rw [revenueLoop]
      rw [if_pos htxStatus, revenueLoop_acc]
      ring
    · show txMatch salonId (resolveWindowStart now period) tx = true
      unfold txMatch
      rw [htxT, htxS]
      rfl
  · show ((b :: store.bookings).filter
        (bookingCreatedMatch salonId (resolveWindowStart now period))).length = _
    rw [List.filter_cons_of_pos]
    · rfl
    · show bookingCreatedMatch salonId (resolveWindowStart now period) b = true
      unfold bookingCreatedMatch
      rw [hbT, hbS]
      rfl
  · show ((c :: store.clients).filter
        (clientCreatedMatch salonId (resolveWindowStart now period))).length = _
    rw [List.filter_cons_of_pos]
    · rfl
    · show clientCreatedMatch salonId (resolveWindowStart now period) c = true
      unfold clientCreatedMatch
      rw [hcT, hcS]
      rfl
  · rw [List.filter_cons_of_pos]
    show bookingStartMatch salonId (resolveWindowStart now period) b = true
    unfold bookingStartMatch
    rw [hbST, hbS]
    rfl

/-- Concrete instance of the amended C6: documents stamped `dtFuture`,
strictly after the computation time `nowEx`, are still counted by the
three rollups. -/
theorem C6_amended_witness :
    (analytics_summary { emptyStore with transactions := txF :: emptyStore.transactions }
        none "30d" nowEx false).total_revenue
      = txF.amount.getD 0 + (analytics_summary emptyStore none "30d" nowEx false).total_revenue
    ∧ (analytics_summary { emptyStore with bookings := bkgF :: emptyStore.bookings }
        none "30d" nowEx false).total_bookings
      = (analytics_summary emptyStore none "30d" nowEx false).total_bookings + 1
    ∧ (analytics_summary { emptyStore with clients := clF :: emptyStore.clients }
        none "30d" nowEx false).new_clients
      = (analytics_summary emptyStore none "30d" nowEx false).new_clients + 1
    ∧ (bkgF :: emptyStore.bookings).filter
        (bookingStartMatch none (resolveWindowStart nowEx "30d"))
      = bkgF :: emptyStore.bookings.filter
          (bookingStartMatch none (resolveWindowStart nowEx "30d")) :=
  C6_amended_lower_bound_scope emptyStore none "30d" nowEx false txF bkgF clF
    (by decide) rfl rfl (by decide) rfl (by decide) (by decide) rfl

/-- `tenantMatch` with a non-empty tenant id is the plain equality
test. -/
theorem tenantMatch_of_ne (s : String) (hs : s ≠ "") (x : String) :
    tenantMatch (some s) x = decide (x = s) := by
  show (if s = "" then true else decide (x = s)) = decide (x = s)
  rw [if_neg hs]

/-- For a non-empty tenant id, the transaction filter factors through
the tenant-only filter. -/
theorem txFilter_factor (s : String) (hs : s ≠ "") (start : DateTime)
    (l : List TransactionDoc) :
    l.filter (txMatch (some s) start) =
      (l.filter (fun t => decide (t.salon_id = s))).filter
        (fun t => dtLe start t.timestamp) := by
  rw [List.filter_filter]
  apply List.filter_congr
  intro t _
  unfold txMatch
  rw [tenantMatch_of_ne s hs]

/-- For a non-empty tenant id, the booking `created_at` filter factors
through the tenant-only filter. -/
theorem bookingCreatedFilter_factor (s : String) (hs : s ≠ "") (start : DateTime)
    (l : List BookingDoc) :
    l.filter (bookingCreatedMatch (some s) start) =
      (l.filter (fun b => decide (b.salon_id = s))).filter
        (fun b => dtLe start b.created_at) := by
  rw [List.filter_filter]
  apply List.filter_congr
  intro b _
  unfold bookingCreatedMatch
  rw [tenantMatch_of_ne s hs]

/-- For a non-empty tenant id, the client `created_at` filter factors
through the tenant-only filter. -/
theorem clientCreatedFilter_factor (s : String) (hs : s ≠ "") (start : DateTime)
    (l : List ClientDoc) :
    l.filter (clientCreatedMatch (some s) start) =
      (l.filter (fun c => decide (c.salon_id = s))).filter
        (fun c => dtLe start c.created_at) := by
  rw [List.filter_filter]
  apply List.filter_congr
  intro c _
  unfold clientCreatedMatch
  rw [tenantMatch_of_ne s hs]

/-- For a non-empty tenant id, the booking `start_time` filter factors
through the tenant-only filter. -/
theorem bookingStartFilter_factor (s : String) (hs : s ≠ "") (start : DateTime)
    (l : List BookingDoc) :
    l.filter (bookingStartMatch (some s) start) =
      (l.filter (fun b => decide (b.salon_id = s))).filter
        (fun b => dtLe start b.start_time) := by
  rw [List.filter_filter]
  apply List.filter_congr
  intro b _
  unfold bookingStartMatch
  rw [tenantMatch_of_ne s hs]

/-- C7 fails on the code as stated: the handler guards the tenant
constraint with Python truthiness (`if salon_id:`), so the supplied
tenant id `""` adds no constraint.  `c7storeY` and the empty store
agree on every document whose tenant id is `""` (there are none), yet
`summarize` with tenant id `""` returns different revenue for them. -/
theorem C7_counterexample_empty_tenant :
    c7storeY.transactions.filter (fun t => decide (t.salon_id = "")) =
      emptyStore.transactions.filter (fun t => decide (t.salon_id = ""))
    ∧ c7storeY.bookings = emptyStore.bookings
    ∧ c7storeY.clients = emptyStore.clients
    ∧ (analytics_summary c7storeY (some "") "30d" nowEx false).total_revenue
        ≠ (analytics_summary emptyStore (some "") "30d" nowEx false).total_revenue := by
  refine ⟨rfl, rfl, rfl, ?_⟩
  show revenueLoop (c7storeY.transactions.filter (txMatch (some "") (resolveWindowStart nowEx "30d"))) 0
      ≠ revenueLoop (emptyStore.transactions.filter (txMatch (some "") (resolveWindowStart nowEx "30d"))) 0
  have h1 : c7storeY.transactions.filter (txMatch (some "") (resolveWindowStart nowEx "30d"))
      = c7storeY.transactions := by rfl
  have h2 : emptyStore.transactions.filter (txMatch (some "") (resolveWindowStart nowEx "30d"))
      = [] := by rfl
  rw [h1, h2]
  norm_num [c7storeY, txY, revenueLoop]

/-- C7 amended: for a non-empty tenant id, every summary field depends
only on the documents of that tenant; a supplied empty tenant id
behaves exactly like an omitted one (all tenants matched). -/
theorem C7_amended_tenant_isolation :
    (∀ (s : String) (st1 st2 : Store) (period : String) (now : DateTime) (aggFails : Bool),
      s ≠ "" →
      st1.transactions.filter (fun t => decide (t.salon_id = s)) =
        st2.transactions.filter (fun t => decide (t.salon_id = s)) →
      st1.bookings.filter (fun b => decide (b.salon_id = s)) =
        st2.bookings.filter (fun b => decide (b.salon_id = s)) →
      st1.clients.filter (fun c => decide (c.salon_id = s)) =
        st2.clients.filter (fun c => decide (c.salon_id = s)) →
      (analytics_summary st1 (some s) period now aggFails).total_revenue =
          (analytics_summary st2 (some s) period now aggFails).total_revenue
        ∧ (analytics_summary st1 (some s) period now aggFails).total_bookings =
          (analytics_summary st2 (some s) period now aggFails).total_bookings
        ∧ (analytics_summary st1 (some s) period now aggFails).new_clients =
          (analytics_summary st2 (some s) period now aggFails).new_clients
        ∧ (analytics_summary st1 (some s) period now aggFails).returning_clients =
          (analytics_summary st2 (some s) period now aggFails).returning_clients)
    ∧ (∀ (st : Store) (period : String) (now : DateTime) (aggFails : Bool),
      analytics_summary st (some "") period now aggFails =
        analytics_summary st none period now aggFails) := by
  constructor
  · intro s st1 st2 period now aggFails hs ht hb hc
    refine ⟨?_, ?_, ?_, ?_⟩
    · show revenueLoop (st1.transactions.filter (txMatch (some s) (resolveWindowStart now period))) 0
          = revenueLoop (st2.transactions.filter (txMatch (some s) (resolveWindowStart now period))) 0
      rw [txFilter_factor s hs, txFilter_factor s hs, ht]
    · show (st1.bookings.filter (bookingCreatedMatch (some s) (resolveWindowStart now period))).length
          = (st2.bookings.filter (bookingCreatedMatch (some s) (resolveWindowStart now period))).length
      rw [bookingCreatedFilter_factor s hs, bookingCreatedFilter_factor s hs, hb]
    · show (st1.clients.filter (clientCreatedMatch (some s) (resolveWindowStart now period))).length
          = (st2.clients.filter (clientCreatedMatch (some s) (resolveWindowStart now period))).length
      rw [clientCreatedFilter_factor s hs, clientCreatedFilter_factor s hs, hc]
    · show (if aggFails then 0 else returningPipeline st1.bookings (some s) (resolveWindowStart now period))
          = (if aggFails then 0 else returningPipeline st2.bookings (some s) (resolveWindowStart now period))
      cases aggFails with
      | true => rfl
      | false =>
        show returningPipeline st1.bookings (some s) (resolveWindowStart now period)
            = returningPipeline st2.bookings (some s) (resolveWindowStart now period)
        unfold returningPipeline
        rw [bookingStartFilter_factor s hs, bookingStartFilter_factor s hs, hb]
  · intro st period now aggFails
    have htx : txMatch (some "") = txMatch none := by
      funext start t
      simp [txMatch, tenantMatch]
    have hbc : bookingCreatedMatch (some "") = bookingCreatedMatch none := by
      funext start b
      simp [bookingCreatedMatch, tenantMatch]
    have hcc : clientCreatedMatch (some "") = clientCreatedMatch none := by
      funext start c
      simp [clientCreatedMatch, tenantMatch]
    have hbs : bookingStartMatch (some "") = bookingStartMatch none := by
      funext start b
      simp [bookingStartMatch, tenantMatch]
    simp only [analytics_summary, returningPipeline, htx, hbc, hcc, hbs]

/-- Instance of the amended C7: adding tenant `"Y"`'s transaction to a
store leaves tenant `"X"`'s summary untouched. -/
theorem C7_amended_witness :
    (analytics_summary c7storeXY (some "X") "30d" nowEx false).total_revenue =
        (analytics_summary c7storeX (some "X") "30d" nowEx false).total_revenue
      ∧ (analytics_summary c7storeXY (some "X") "30d" nowEx false).total_bookings =
        (analytics_summary c7storeX (some "X") "30d" nowEx false).total_bookings
      ∧ (analytics_summary c7storeXY (some "X") "30d" nowEx false).new_clients =
        (analytics_summary c7storeX (some "X") "30d" nowEx false).new_clients
      ∧ (analytics_summary c7storeXY (some "X") "30d" nowEx false).returning_clients =
        (analytics_summary c7storeX (some "X") "30d" nowEx false).returning_clients :=
  C7_amended_tenant_isolation.1 "X" c7storeXY c7storeX "30d" nowEx false
    (by decide) rfl rfl rfl

/-- C8 fails on the code: the transaction schema and the
create-transaction endpoint place no lower bound on `amount`, so the
store can hold a succeeded in-window transaction of amount `-50`, and
`total_revenue` then comes out negative. -/
theorem C8_counterexample_negative_amount :
    (analytics_summary negStore none "30d" nowEx false).total_revenue < 0 := by
  show revenueLoop (negStore.transactions.filter (txMatch none (resolveWindowStart nowEx "30d"))) 0 < 0
  have hf : negStore.transactions.filter (txMatch none (resolveWindowStart nowEx "30d"))
      = negStore.transactions := by rfl
  rw [hf]
  norm_num [negStore, revenueLoop]

/-- C8 amended: whenever every stored `amount` (resp. `mrr`) value is
non-negative where present, `total_revenue`, `mrr` and `revenue_30d`
are non-negative; and a document lacking the summed field contributes
exactly zero to its aggregate. -/
theorem C8_amended_nonneg_and_missing_zero :
    ∀ (store : Store) (salonId : Option String) (period : String) (now : DateTime)
      (aggFails : Bool),
      ((∀ t ∈ store.transactions, 0 ≤ t.amount.getD 0) →
        0 ≤ (analytics_summary store salonId period now aggFails).total_revenue)
      ∧ ((∀ s ∈ store.subscriptions, 0 ≤ s.mrr.getD 0) → 0 ≤ (admin_metrics store now).mrr)
      ∧ ((∀ t ∈ store.transactions, 0 ≤ t.amount.getD 0) →
        0 ≤ (admin_metrics store now).revenue_30d)
      ∧ (∀ t : TransactionDoc, t.amount = none →
          (analytics_summary { store with transactions := t :: store.transactions }
              salonId period now aggFails).total_revenue
            = (analytics_summary store salonId period now aggFails).total_revenue)
      ∧ (∀ s : SubscriptionDoc, s.mrr = none →
          (admin_metrics { store with subscriptions := s :: store.subscriptions } now).mrr
            = (admin_metrics store now).mrr) := by
  intro store salonId period now aggFails
  refine ⟨?_, ?_, ?_, ?_, ?_⟩
  · intro hnn
    show 0 ≤ revenueLoop (store.transactions.filter (txMatch salonId (resolveWindowStart now period))) 0
    rw [revenueLoop_eq_sum]
    apply List.sum_nonneg
    intro x hx
    obtain ⟨t, htmem, rfl⟩ := List.mem_map.mp hx
    exact hnn t (List.mem_of_mem_filter (List.mem_of_mem_filter htmem))
  · intro hnn
    show 0 ≤ mrrLoop (store.subscriptions.filter isActiveOrPastDue) 0
    rw [mrrLoop_eq_sum]
    apply List.sum_nonneg
    intro x hx
    obtain ⟨s, hsmem, rfl⟩ := List.mem_map.mp hx
    exact hnn s (List.mem_of_mem_filter hsmem)
  · intro hnn
    show 0 ≤ amountLoop (store.transactions.filter
        (fun t => dtLe (subDays now 30) t.timestamp && decide (t.status = some "succeeded"))) 0
    rw [amountLoop_eq_sum]
    apply List.sum_nonneg
    intro x hx
    obtain ⟨t, htmem, rfl⟩ := List.mem_map.mp hx
    exact hnn t (List.mem_of_mem_filter htmem)
  · intro t ht
    show revenueLoop ((t :: store.transactions).filter
        (txMatch salonId (resolveWindowStart now period))) 0
      = revenueLoop (store.transactions.filter (txMatch salonId (resolveWindowStart now period))) 0
    rw [List.filter_cons]
    split_ifs with h
    · conv_lhs => rw [revenueLoop]
      rw [ht]
      norm_num
    · rfl
  · intro s hsm
    show mrrLoop ((s :: store.subscriptions).filter isActiveOrPastDue) 0
      = mrrLoop (store.subscriptions.filter isActiveOrPastDue) 0
    rw [List.filter_cons]
    split_ifs with h
    · conv_lhs => rw [mrrLoop]
      rw [hsm]
      norm_num
    · rfl

/-- Instance of the amended C8 at concrete stores: non-negative stored
amounts give non-negative aggregates, and amount-less / mrr-less
documents leave the aggregates unchanged. -/
theorem C8_amended_witness :
    0 ≤ (analytics_summary c1store none "30d" nowEx false).total_revenue
    ∧ 0 ≤ (admin_metrics c5store nowEx).mrr
    ∧ 0 ≤ (admin_metrics c1store nowEx).revenue_30d
    ∧ (analytics_summary { c1store with transactions := txNone :: c1store.transactions }
          none "30d" nowEx false).total_revenue
        = (analytics_summary c1store none "30d" nowEx false).total_revenue
    ∧ (admin_metrics { c5store with subscriptions := subNone :: c5store.subscriptions }
          nowEx).mrr
        = (admin_metrics c5store nowEx).mrr := by
  have hamt : ∀ t ∈ c1store.transactions, (0 : ℚ) ≤ t.amount.getD 0 := by
    intro t htm
    have he : c1store.transactions = [⟨"T", some 100, some "succeeded", dtIn⟩,
        ⟨"T", some 50, some "failed", dtIn⟩] := rfl
    rw [he] at htm
    fin_cases htm <;> norm_num
  have hmrr : ∀ s ∈ c5store.subscriptions, (0 : ℚ) ≤ s.mrr.getD 0 := by
    intro s hsm
    have he : c5store.subscriptions = [⟨"s1", some "active", some 1000⟩,
        ⟨"s2", some "trial", some 500⟩, ⟨"s3", some "canceled", some 2000⟩] := rfl
    rw [he] at hsm
    fin_cases hsm <;> norm_num
  exact ⟨(C8_amended_nonneg_and_missing_zero c1store none "30d" nowEx false).1 hamt,
   (C8_amended_nonneg_and_missing_zero c5store none "30d" nowEx false).2.1 hmrr,
   (C8_amended_nonneg_and_missing_zero c1store none "30d" nowEx false).2.2.1 hamt,
   (C8_amended_nonneg_and_missing_zero c1store none "30d" nowEx false).2.2.2.1 txNone rfl,
   (C8_amended_nonneg_and_missing_zero c5store none "30d" nowEx false).2.2.2.2 subNone rfl⟩

end GrowthOS
